import Mathlib

/-!
Verification of the EasyTier OHOS bridge layer
(`src/easytier-contrib/easytier-ohrs/src/lib.rs`).

The file shallowly embeds the bridge's global state and its operations
(`protect_socket`, `run_network_instance`, `stop_network_instance`) and
proves the spec's testable properties about them.

The external `NetworkInstanceManager` collaborator (repository code that is
not part of the bridge source file) is represented at its interface
boundary: its registry is carried in the state, and the outcomes of its
fallible operations (`run_network_instance`, `set_tun_fd`,
`delete_network_instance`) are explicit inputs.  A Rust `panic!` arising
from `.unwrap()` on a collaborator error is modelled as a distinguished
outcome (`Option.none` for start, a `panicked` flag for stop).
-/

namespace EasytierOhrs

/-- Instance identifiers (`uuid::Uuid`) are abstracted as naturals. -/
abbrev UuidT := Nat

/-- The bridge's process-wide mutable state:
`instances` is the Instance Manager's running-instance registry
(what `list_network_instance_ids` returns), `tunFd` is the `TUN_FD`
atomic, `protectFn` records whether `PROTECT_FN` currently holds a
registered callback, and `socketSet` is the `SOCKET_SET` ledger of
protected socket descriptors. -/
structure BridgeState where
  instances : List UuidT
  tunFd : Int
  protectFn : Bool
  socketSet : List Int
  deriving Repr, DecidableEq

/-- State at process start: `NetworkInstanceManager::new` has an empty
registry, `TUN_FD` is initialised to `-1`, no callback is registered and
the ledger is empty. -/
def initState : BridgeState :=
  { instances := [], tunFd := -1, protectFn := false, socketSet := [] }

/-- Result of a parsed TOML configuration (`TomlConfigLoader`): the only
attribute the bridge reads is `get_id()`. -/
structure Config where
  id : UuidT
  deriving Repr, DecidableEq

/-- Outcome of `protect_socket`: the returned boolean, the state after the
call, and how many times the host callback (`tsfn.call`) was invoked. -/
structure ProtectResult where
  ret : Bool
  state : BridgeState
  callbackInvocations : Nat
  deriving Repr, DecidableEq

/-- `protect_socket` (lib.rs lines 29-48).  If `fd` is in `SOCKET_SET`,
return `true` at once.  Otherwise, if a callback is registered, invoke it
(`tsfn.call`, which only enqueues the call), sleep a fixed 10 ms, insert
`fd` into `SOCKET_SET` and return `true`; if none is registered, return
`false`.  `hostCompleted` is a ghost input recording whether the host
actually finished applying protection during the fixed sleep: the source
never consults any completion signal, so the body ignores it.  The
`socketAddr` argument is only logged by the source. -/
def protect_socket (fd : Int) (hostCompleted : Bool) (socketAddr : String)
    (s : BridgeState) : ProtectResult :=
  if fd ∈ s.socketSet then
    { ret := true, state := s, callbackInvocations := 0 }
  else if s.protectFn then
    { ret := true
      state := { s with socketSet := fd :: s.socketSet }
      callbackInvocations := 1 }
  else
    { ret := false, state := s, callbackInvocations := 0 }

/-- `init_protect_fn` (lib.rs lines 50-57): registers (or replaces) the
host callback and installs `protect_socket` as the engine's
socket-creation hook. -/
def init_protect_fn (s : BridgeState) : BridgeState :=
  { s with protectFn := true }

/-- `set_global_tun` (lib.rs lines 65-69): stores the host-provided tunnel
handle into `TUN_FD`. -/
def set_global_tun (fd : Int) (s : BridgeState) : BridgeState :=
  { s with tunFd := fd }

/-- The environment-determined outcomes consumed by one
`run_network_instance` call: the configuration-parse result
(`TomlConfigLoader::new_from_str`), the Instance Manager's
`run_network_instance` result (`none` models `Err`, on which the source
calls `.unwrap()` and panics), and the `set_tun_fd` result. -/
structure StartInput where
  parseResult : Option Config
  engineRun : Option UuidT
  setTunOk : Bool
  deriving Repr, DecidableEq

/-- Outcome of `run_network_instance`: `ret = none` models a panic
(the `.unwrap()` on an engine error), otherwise `some b` is the returned
boolean.  `engineRunInvoked` records whether the engine's run operation
was called, `setTunCalls` the exact `set_tun_fd` invocations, and
`tunFdRead` whether `TUN_FD` was loaded. -/
structure StartResult where
  ret : Option Bool
  state : BridgeState
  engineRunInvoked : Bool
  setTunCalls : List (UuidT × Int)
  tunFdRead : Bool
  deriving Repr, DecidableEq

/-- `run_network_instance` (lib.rs lines 84-124).  Parse failure returns
`false`.  A non-empty registry returns `false` (singleton policy), as does
a registry already containing the configuration's id (defensive duplicate
check).  Then the engine's run is invoked: on engine error the source
panics via `.unwrap()` (modelled as `ret = none`; the registry is not
mutated on engine failure — modelled from the spec: the Instance Manager's
internals are outside the bridge source, and the spec requires that engine
failures not corrupt lifecycle state).  On success the returned uuid joins
the registry (modelled from the spec: `run(config, source_tag)` starts the
instance, whose liveness is membership in the registry).  Finally `TUN_FD`
is loaded; if positive, `set_tun_fd(uuid, fd)` is invoked and its error,
if any, only logged; the call returns `true` either way. -/
def run_network_instance (inp : StartInput) (s : BridgeState) : StartResult :=
  match inp.parseResult with
  | none =>
      { ret := some false, state := s, engineRunInvoked := false
        setTunCalls := [], tunFdRead := false }
  | some cfg =>
      if s.instances.length > 0 then
        { ret := some false, state := s, engineRunInvoked := false
          setTunCalls := [], tunFdRead := false }
      else if cfg.id ∈ s.instances then
        { ret := some false, state := s, engineRunInvoked := false
          setTunCalls := [], tunFdRead := false }
      else
        match inp.engineRun with
        | none =>
            { ret := none, state := s, engineRunInvoked := true
              setTunCalls := [], tunFdRead := false }
        | some uuid =>
            let s1 := { s with instances := uuid :: s.instances }
            if s.tunFd > 0 then
              { ret := some true, state := s1, engineRunInvoked := true
                setTunCalls := [(uuid, s.tunFd)], tunFdRead := true }
            else
              { ret := some true, state := s1, engineRunInvoked := true
                setTunCalls := [], tunFdRead := true }

/-- A sequence of `run_network_instance` calls.  A call that panics
(engine `.unwrap()` failure) ends the process, so the sequence stops
there. -/
def startSeq : List StartInput → BridgeState → BridgeState
  | [], s => s
  | inp :: rest, s =>
      let r := run_network_instance inp s
      match r.ret with
      | none => r.state
      | some _ => startSeq rest r.state

/-- Outcome of `stop_network_instance`: `panicked = true` models the
`.unwrap()` panic on a `delete_network_instance` error (the statements
after it, including the ledger clear, are never executed).  `deleteArg`
records exactly the identifier list passed to the engine's delete
operation. -/
structure StopResult where
  panicked : Bool
  state : BridgeState
  deleteArg : List UuidT
  deriving Repr, DecidableEq

/-- `stop_network_instance` (lib.rs lines 126-140).  Each input string is
parsed as a uuid (`Uuid::parse_str`, abstracted as the `parse` argument);
unparseable entries are silently dropped by `filter_map`.  The valid
subset is passed to the engine's `delete_network_instance`, whose `Err`
outcome (`deleteFails`) makes the `.unwrap()` panic before anything else
runs.  Otherwise the named instances leave the registry (modelled from
the spec: `delete(ids)` removes the given instances; the Instance
Manager's internals are outside the bridge source), and if the registry
is then empty, `SOCKET_SET` is cleared. -/
def stop_network_instance (parse : String → Option UuidT) (deleteFails : Bool)
    (instNames : List String) (s : BridgeState) : StopResult :=
  let valid := instNames.filterMap parse
  match deleteFails with
  | true => { panicked := true, state := s, deleteArg := valid }
  | false =>
    let s1 := { s with instances := s.instances.filter (fun i => i ∉ valid) }
    if s1.instances.isEmpty then
      { panicked := false, state := { s1 with socketSet := [] }, deleteArg := valid }
    else
      { panicked := false, state := s1, deleteArg := valid }

/-- `is_running_network` (lib.rs lines 177-191): parse failure yields
`false`, otherwise registry membership. -/
def is_running_network (parse : String → Option UuidT) (instId : String)
    (s : BridgeState) : Bool :=
  match parse instId with
  | some uuid => uuid ∈ s.instances
  | none => false

/-! ## Helper lemmas -/

/-- A `run_network_instance` call on a non-empty registry changes nothing:
it returns `false` without invoking the engine, without reading `TUN_FD`
and without any `set_tun_fd` call. -/
lemma run_no_instance_running (inp : StartInput) (s : BridgeState)
    (h : s.instances ≠ []) :
    run_network_instance inp s =
      { ret := some false, state := s, engineRunInvoked := false
        setTunCalls := [], tunFdRead := false } := by
  have hlen : s.instances.length > 0 := List.length_pos.mpr h
  unfold run_network_instance
  cases hp : inp.parseResult with
  | none => rfl
  | some cfg => simp [hlen]

/-- One `run_network_instance` call preserves the singleton bound on the
registry. -/
lemma run_preserves_singleton (inp : StartInput) (s : BridgeState)
    (h : s.instances.length ≤ 1) :
    (run_network_instance inp s).state.instances.length ≤ 1 := by
  unfold run_network_instance
  cases hp : inp.parseResult with
  | none => simpa using h
  | some cfg =>
    by_cases hlen : s.instances.length > 0
    · simpa [hlen] using h
    · have hnil : s.instances = [] := by
        cases hi : s.instances with
        | nil => rfl
        | cons a l => exact absurd (by simp [hi]) hlen
      cases hr : inp.engineRun with
      | none => simp [hlen, hnil]
      | some uuid => by_cases hfd : s.tunFd > 0 <;> simp [hlen, hnil, hfd]

/-- The singleton bound is preserved along any sequence of start calls. -/
lemma startSeq_preserves_singleton (inputs : List StartInput)
    (s : BridgeState) (h : s.instances.length ≤ 1) :
    (startSeq inputs s).instances.length ≤ 1 := by
  induction inputs generalizing s with
  | nil => exact h
  | cons inp rest ih =>
    cases hr : (run_network_instance inp s).ret with
    | none => simpa [startSeq, hr] using run_preserves_singleton inp s h
    | some b => simpa [startSeq, hr] using ih _ (run_preserves_singleton inp s h)

/-! ## Claim theorems -/

/-- Claim C1: along every sequence of start calls the running-instance
registry holds at most one identifier, and a start call issued while some
instance is running returns failure (`false`) without mutating any state,
without invoking the engine's run operation, without any `set_tun_fd`
call and without reading `TUN_FD`. -/
theorem start_singleton_policy :
    (∀ (inputs : List StartInput) (s : BridgeState),
        s.instances.length ≤ 1 → (startSeq inputs s).instances.length ≤ 1) ∧
    (∀ (inp : StartInput) (s : BridgeState), s.instances ≠ [] →
        run_network_instance inp s =
          { ret := some false, state := s, engineRunInvoked := false
            setTunCalls := [], tunFdRead := false }) :=
  ⟨startSeq_preserves_singleton, run_no_instance_running⟩

/-- Witness for C1 at concrete inputs. -/
theorem start_singleton_policy_witness :
    (startSeq [⟨some ⟨1⟩, some 1, true⟩, ⟨some ⟨2⟩, some 2, true⟩]
        initState).instances.length ≤ 1 ∧
    run_network_instance ⟨some ⟨2⟩, some 2, true⟩ ⟨[1], -1, false, []⟩ =
      { ret := some false, state := ⟨[1], -1, false, []⟩
        engineRunInvoked := false, setTunCalls := [], tunFdRead := false } :=
  ⟨start_singleton_policy.1 [⟨some ⟨1⟩, some 1, true⟩, ⟨some ⟨2⟩, some 2, true⟩]
      initState (by decide),
   start_singleton_policy.2 ⟨some ⟨2⟩, some 2, true⟩ ⟨[1], -1, false, []⟩ (by decide)⟩

/-- Claim C2: with a callback registered, two consecutive protection
requests for the same `fd` invoke the host callback at most once in
total, and the second request returns `true` with no invocation. -/
theorem protect_socket_idempotent (fd : Int) (h1 h2 : Bool) (a1 a2 : String)
    (s : BridgeState) (hcb : s.protectFn = true) :
    (protect_socket fd h1 a1 s).callbackInvocations
        + (protect_socket fd h2 a2
            (protect_socket fd h1 a1 s).state).callbackInvocations ≤ 1 ∧
    (protect_socket fd h2 a2 (protect_socket fd h1 a1 s).state).ret = true ∧
    (protect_socket fd h2 a2
        (protect_socket fd h1 a1 s).state).callbackInvocations = 0 := by
  by_cases hmem : fd ∈ s.socketSet <;>
    simp [protect_socket, hmem, hcb]

/-- Witness for C2 at concrete inputs. -/
theorem protect_socket_idempotent_witness :
    (protect_socket 7 true "10.0.0.1:80" (init_protect_fn initState)).callbackInvocations
        + (protect_socket 7 true "10.0.0.1:80"
            (protect_socket 7 true "10.0.0.1:80"
              (init_protect_fn initState)).state).callbackInvocations ≤ 1 ∧
    (protect_socket 7 true "10.0.0.1:80"
        (protect_socket 7 true "10.0.0.1:80" (init_protect_fn initState)).state).ret = true ∧
    (protect_socket 7 true "10.0.0.1:80"
        (protect_socket 7 true "10.0.0.1:80"
          (init_protect_fn initState)).state).callbackInvocations = 0 :=
  protect_socket_idempotent 7 true true "10.0.0.1:80" "10.0.0.1:80"
    (init_protect_fn initState) rfl

/-- Claim C3 counterexample: with a callback registered and `fd = 5` not
yet protected, a request whose host completion signal never arrives
within the fixed wait (`hostCompleted = false`, i.e. a timeout) is still
treated as success: the descriptor is marked protected in the ledger and
the call returns `true` — contradicting the claim that a timeout is
treated as failure. -/
theorem protect_socket_timeout_cex :
    (protect_socket 5 false "10.0.0.1:80" (init_protect_fn initState)).ret = true ∧
    (5 : Int) ∈ (protect_socket 5 false "10.0.0.1:80"
        (init_protect_fn initState)).state.socketSet := by
  decide

/-- Claim C3 amended: after invoking the callback the code only sleeps a
fixed 10 ms; it never consults a completion signal, so whenever a
callback is registered and `fd` is unprotected the request marks `fd`
protected and returns `true`, with an outcome independent of whether the
host completed within the wait. -/
theorem protect_socket_fixed_sleep (fd : Int) (hc : Bool) (a : String)
    (s : BridgeState) (hcb : s.protectFn = true) (hmem : fd ∉ s.socketSet) :
    (protect_socket fd hc a s).ret = true ∧
    fd ∈ (protect_socket fd hc a s).state.socketSet ∧
    protect_socket fd true a s = protect_socket fd false a s := by
  refine ⟨?_, ?_, rfl⟩ <;> simp [protect_socket, hmem, hcb]

/-- Witness for the amended C3 at concrete inputs. -/
theorem protect_socket_fixed_sleep_witness :
    (protect_socket 6 false "10.0.0.2:443" (init_protect_fn initState)).ret = true ∧
    (6 : Int) ∈ (protect_socket 6 false "10.0.0.2:443"
        (init_protect_fn initState)).state.socketSet ∧
    protect_socket 6 true "10.0.0.2:443" (init_protect_fn initState) =
      protect_socket 6 false "10.0.0.2:443" (init_protect_fn initState) :=
  protect_socket_fixed_sleep 6 false "10.0.0.2:443" (init_protect_fn initState)
    rfl (by decide)

/-- Claim C8: when no host callback has been registered, a protection
request for a descriptor not already in the ledger returns `false`,
invokes nothing and leaves the whole state — in particular the ledger —
unchanged. -/
theorem protect_socket_no_callback (fd : Int) (hc : Bool) (a : String)
    (s : BridgeState) (hcb : s.protectFn = false) (hmem : fd ∉ s.socketSet) :
    protect_socket fd hc a s =
      { ret := false, state := s, callbackInvocations := 0 } := by
  simp [protect_socket, hmem, hcb]

/-- Witness for C8 at concrete inputs. -/
theorem protect_socket_no_callback_witness :
    protect_socket 8 true "10.0.0.4:22" initState =
      { ret := false, state := initState, callbackInvocations := 0 } :=
  protect_socket_no_callback 8 true "10.0.0.4:22" initState rfl (by decide)

/-- Claim C5 counterexample: with a valid configuration, an empty
registry and an engine run failure, `run_network_instance` panics (the
`.unwrap()` unwinds, modelled as `ret = none`): no error value — indeed
no value at all — is returned to the caller, contradicting the claim
that the failure is surfaced as a typed, catchable returned error. -/
theorem start_engine_failure_cex :
    (run_network_instance ⟨some ⟨7⟩, none, true⟩ initState).ret = none := by
  decide

/-- Claim C5 amended: if the engine's run operation fails during a start
call (after parsing succeeds and the singleton/duplicate checks pass),
the call panics via `.unwrap()` instead of returning an error value; the
bridge state is not mutated and no `set_tun_fd` call or `TUN_FD` read
happens. -/
theorem start_engine_failure_panics (cfg : Config) (ok : Bool)
    (s : BridgeState) (hempty : s.instances = []) :
    run_network_instance ⟨some cfg, none, ok⟩ s =
      { ret := none, state := s, engineRunInvoked := true
        setTunCalls := [], tunFdRead := false } := by
  simp [run_network_instance, hempty]

/-- Witness for the amended C5 at concrete inputs. -/
theorem start_engine_failure_panics_witness :
    run_network_instance ⟨some ⟨7⟩, none, true⟩ initState =
      { ret := none, state := initState, engineRunInvoked := true
        setTunCalls := [], tunFdRead := false } :=
  start_engine_failure_panics ⟨7⟩ true initState rfl

/-- Claim C6: tunnel assignment is best-effort.  With the checks passing
and the engine run succeeding, a positive stored tunnel handle is passed
to exactly one `set_tun_fd` call with exactly that value, a non-positive
handle produces no `set_tun_fd` call, and in every case — the
`set_tun_fd` outcome `ok` is universally quantified, so also when it
fails — the instance is in the registry and the call returns `true`. -/
theorem start_tunnel_best_effort (cfg : Config) (uuid : UuidT) (ok : Bool)
    (s : BridgeState) (hempty : s.instances = []) :
    (run_network_instance ⟨some cfg, some uuid, ok⟩ s).ret = some true ∧
    uuid ∈ (run_network_instance ⟨some cfg, some uuid, ok⟩ s).state.instances ∧
    (0 < s.tunFd →
      (run_network_instance ⟨some cfg, some uuid, ok⟩ s).setTunCalls
        = [(uuid, s.tunFd)]) ∧
    (s.tunFd ≤ 0 →
      (run_network_instance ⟨some cfg, some uuid, ok⟩ s).setTunCalls = []) := by
  by_cases hfd : 0 < s.tunFd <;>
    simp [run_network_instance, hempty, hfd]

/-- Witness for C6 at concrete inputs (positive handle case). -/
theorem start_tunnel_best_effort_witness :
    (run_network_instance ⟨some ⟨3⟩, some 3, false⟩
        (set_global_tun 42 initState)).ret = some true ∧
    3 ∈ (run_network_instance ⟨some ⟨3⟩, some 3, false⟩
        (set_global_tun 42 initState)).state.instances ∧
    (0 < (set_global_tun 42 initState).tunFd →
      (run_network_instance ⟨some ⟨3⟩, some 3, false⟩
          (set_global_tun 42 initState)).setTunCalls
        = [(3, (set_global_tun 42 initState).tunFd)]) ∧
    ((set_global_tun 42 initState).tunFd ≤ 0 →
      (run_network_instance ⟨some ⟨3⟩, some 3, false⟩
          (set_global_tun 42 initState)).setTunCalls = []) :=
  start_tunnel_best_effort ⟨3⟩ 3 false (set_global_tun 42 initState) rfl

/-- If a non-panicking stop call leaves the registry empty, the whole
resulting state is the old one with an empty registry and a cleared
ledger. -/
lemma stop_state_of_empty (parse : String → Option UuidT)
    (names : List String) (s : BridgeState)
    (hempty : (stop_network_instance parse false names s).state.instances = []) :
    (stop_network_instance parse false names s).state =
      { s with instances := [], socketSet := [] } := by
  by_cases he : (s.instances.filter (fun i => i ∉ names.filterMap parse)).isEmpty
  · have hl : s.instances.filter (fun i => i ∉ names.filterMap parse) = [] :=
      List.isEmpty_iff.mp he
    simp only [stop_network_instance]
    rw [if_pos he, hl]
  · simp only [stop_network_instance] at hempty
    rw [if_neg he] at hempty
    rw [List.isEmpty_iff] at he
    exact absurd hempty he

/-- Claim C4: after a stop call whose result leaves the registry empty,
the ledger is cleared, so a subsequent protection request for any
descriptor — in particular one protected before the stop — misses the
fast path and invokes the host callback once more. -/
theorem stop_clears_ledger_then_reprotect (parse : String → Option UuidT)
    (names : List String) (s : BridgeState) (fd : Int) (hc : Bool) (a : String)
    (hcb : s.protectFn = true)
    (hempty : (stop_network_instance parse false names s).state.instances = []) :
    (stop_network_instance parse false names s).state.socketSet = [] ∧
    (protect_socket fd hc a
        (stop_network_instance parse false names s).state).ret = true ∧
    (protect_socket fd hc a
        (stop_network_instance parse false names s).state).callbackInvocations = 1 := by
  rw [stop_state_of_empty parse names s hempty]
  simp [protect_socket, hcb]

/-- Witness for C4 at concrete inputs: descriptor 9 is protected before
the stop and triggers a fresh callback invocation afterwards. -/
theorem stop_clears_ledger_then_reprotect_witness :
    (stop_network_instance (fun _ => none) false []
        ⟨[], -1, true, [9]⟩).state.socketSet = [] ∧
    (protect_socket 9 true "10.0.0.3:53"
        (stop_network_instance (fun _ => none) false []
          ⟨[], -1, true, [9]⟩).state).ret = true ∧
    (protect_socket 9 true "10.0.0.3:53"
        (stop_network_instance (fun _ => none) false []
          ⟨[], -1, true, [9]⟩).state).callbackInvocations = 1 :=
  stop_clears_ledger_then_reprotect (fun _ => none) [] ⟨[], -1, true, [9]⟩
    9 true "10.0.0.3:53" rfl (by decide)

/-- Claim C7: unparseable entries are silently dropped — prepending one
leaves the whole result of the call unchanged — and the list passed to
the engine's delete operation is exactly the subset of entries that
parse; a non-panicking call never fails. -/
theorem stop_discards_unparseable (parse : String → Option UuidT)
    (bad : String) (names : List String) (s : BridgeState)
    (hbad : parse bad = none) :
    stop_network_instance parse false (bad :: names) s =
      stop_network_instance parse false names s ∧
    (stop_network_instance parse false names s).deleteArg
      = names.filterMap parse ∧
    (stop_network_instance parse false names s).panicked = false := by
  refine ⟨?_, ?_, ?_⟩
  · simp [stop_network_instance, List.filterMap_cons, hbad]
  · simp only [stop_network_instance]
    split <;> rfl
  · simp only [stop_network_instance]
    split <;> rfl

/-- Witness for C7 at concrete inputs: the entry `not-a-uuid` does not
parse and changes nothing, while `id1` is deleted. -/
theorem stop_discards_unparseable_witness :
    stop_network_instance (fun n => if n = "id1" then some 1 else none) false
        ["not-a-uuid", "id1"] ⟨[1], -1, false, [9]⟩ =
      stop_network_instance (fun n => if n = "id1" then some 1 else none) false
        ["id1"] ⟨[1], -1, false, [9]⟩ ∧
    (stop_network_instance (fun n => if n = "id1" then some 1 else none) false
        ["id1"] ⟨[1], -1, false, [9]⟩).deleteArg
      = ["id1"].filterMap (fun n => if n = "id1" then some 1 else none) ∧
    (stop_network_instance (fun n => if n = "id1" then some 1 else none) false
        ["id1"] ⟨[1], -1, false, [9]⟩).panicked = false :=
  stop_discards_unparseable (fun n => if n = "id1" then some 1 else none)
    "not-a-uuid" ["id1"] ⟨[1], -1, false, [9]⟩ (by decide)

/-- Claim C9: if the engine's delete operation fails, the stop call
panics on the `.unwrap()` before the ledger-clear step, so the
Protected-Socket Ledger is left unchanged. -/
theorem stop_delete_error_panics (parse : String → Option UuidT)
    (names : List String) (s : BridgeState) :
    (stop_network_instance parse true names s).panicked = true ∧
    (stop_network_instance parse true names s).state.socketSet = s.socketSet :=
  ⟨rfl, rfl⟩

/-- Claim C10: whenever no instance is running, any stop call — also one
with an empty or entirely unparseable input list, which removes nothing —
leaves the registry empty and clears the ledger. -/
theorem stop_clears_ledger_when_registry_empty (parse : String → Option UuidT)
    (names : List String) (s : BridgeState) (hempty : s.instances = []) :
    stop_network_instance parse false names s =
      { panicked := false
        state := { s with socketSet := [] }
        deleteArg := names.filterMap parse } := by
  simp [stop_network_instance, hempty]

/-- Witness for C10 at concrete inputs: a stop with only an unparseable
entry, while nothing runs, still clears the ledger. -/
theorem stop_clears_ledger_when_registry_empty_witness :
    stop_network_instance (fun _ => none) false ["garbage"]
        ⟨[], -1, true, [4, 9]⟩ =
      { panicked := false
        state := { instances := [], tunFd := -1, protectFn := true
                   socketSet := [] }
        deleteArg := ["garbage"].filterMap (fun _ => none) } :=
  stop_clears_ledger_when_registry_empty (fun _ => none) ["garbage"]
    ⟨[], -1, true, [4, 9]⟩ rfl

end EasytierOhrs
